import Mathlib

/-!
Verification of the ZetsuServ support-portal application (src/flask_app.py,
v4.0.0) against its natural-language specification.

The Flask route handlers and utility functions are shallowly embedded as pure
Lean functions over an explicit application state.  Wall-clock instants
(`datetime` values) are modelled as natural numbers (seconds); external side
effects (SMTP, webhook, logging) do not change the modelled state and are
represented only through the outcome values of the handlers.
-/

namespace ZetsuServ

/-! ## Configuration constants (flask_app.py lines 88-111) -/

def ALLOWED_ISSUE_TYPES : List String :=
  ["Technical Support", "Billing Inquiry", "Feature Request", "Bug Report",
   "General Question", "Account Issue", "Product Inquiry"]

def TICKET_PRIORITIES : List String := ["Low", "Medium", "High", "Urgent"]

def ALLOWED_EXTENSIONS : List String :=
  ["txt", "pdf", "png", "jpg", "jpeg", "gif", "doc", "docx"]

def BATCH_SIZE : Nat := 5

def OTP_EXPIRY_MINUTES : Nat := 10

def OTP_LENGTH : Nat := 6

/-! ## Python string helpers

`str.strip()` / `str.lower()` / `str.upper()` as used by the handlers on
ASCII form input. -/

def pyIsSpace (c : Char) : Bool :=
  c == ' ' || c == '\t' || c == '\n' || c == '\r' || c == '\x0b' || c == '\x0c'

def pyStripList (cs : List Char) : List Char :=
  ((cs.dropWhile pyIsSpace).reverse.dropWhile pyIsSpace).reverse

def pyStrip (s : String) : String := ⟨pyStripList s.toList⟩

def pyLower (s : String) : String := ⟨s.toList.map Char.toLower⟩

def pyUpperList (cs : List Char) : List Char := cs.map Char.toUpper

/-! ## validate_email (flask_app.py lines 403-409)

Embedding of `re.match(r'^[a-zA-Z0-9._%+-]+@[a-zA-Z0-9.-]+\.[a-zA-Z]{2,}$', email)`.
Both character classes exclude the at sign, so the string matches exactly when
it splits at its first at sign into a nonempty local part inside the local
class and a domain part that itself splits at some dot into a nonempty prefix
inside the domain class and a trailing run of at least two letters.  Python's
dollar anchor also matches just before one trailing newline, which the
embedding reproduces by dropping a single final newline. -/

def isLocalChar (c : Char) : Bool :=
  c.isAlpha || c.isDigit || c == '.' || c == '_' || c == '%' || c == '+' || c == '-'

def isDomainChar (c : Char) : Bool :=
  c.isAlpha || c.isDigit || c == '.' || c == '-'

def domainMatch (cs : List Char) : Bool :=
  (List.range cs.length).any fun i =>
    decide (1 ≤ i) && (cs.getD i ' ' == '.') && (cs.take i).all isDomainChar &&
      (cs.drop (i + 1)).all Char.isAlpha && decide (2 ≤ cs.length - (i + 1))

def validate_email (email : String) : Bool :=
  let cs0 := email.toList
  let cs := if cs0.getLast? == some '\n' then cs0.dropLast else cs0
  let lpart := cs.takeWhile (fun c => !(c == '@'))
  match cs.dropWhile (fun c => !(c == '@')) with
  | '@' :: dom => !lpart.isEmpty && lpart.all isLocalChar && domainMatch dom
  | _ => false

/-! ## allowed_file (flask_app.py lines 391-393) -/

def fileExt (filename : String) : Option String :=
  let cs := filename.toList
  if cs.contains '.' then
    some ⟨(cs.reverse.takeWhile (fun c => !(c == '.'))).reverse⟩
  else none

def allowed_file (filename : String) : Bool :=
  match fileExt filename with
  | some ext => ALLOWED_EXTENSIONS.contains (pyLower ext)
  | none => false

/-! ## generate_ticket_id (flask_app.py lines 293-297)

`strftime('%Y%m%d')` zero-pads the year to four digits and month/day to two;
`secrets.token_hex(4)` renders four random bytes as eight lowercase hex
digits, then `.upper()` is applied.  The date components and the 32-bit
random value are passed in explicitly. -/

def digitChar (n : Nat) : Char := Char.ofNat (48 + n)

def hexChar (n : Nat) : Char :=
  if n < 10 then Char.ofNat (48 + n) else Char.ofNat (87 + n)

def natDec (n : Nat) : List Char :=
  if _h : n < 10 then [digitChar n]
  else natDec (n / 10) ++ [digitChar (n % 10)]
  decreasing_by exact Nat.div_lt_self (by omega) (by omega)

def natHex (n : Nat) : List Char :=
  if _h : n < 16 then [hexChar n]
  else natHex (n / 16) ++ [hexChar (n % 16)]
  decreasing_by exact Nat.div_lt_self (by omega) (by omega)

def padZerosList (w : Nat) (cs : List Char) : List Char :=
  List.replicate (w - cs.length) '0' ++ cs

def generate_ticket_id (y m d rand : Nat) : String :=
  ⟨['Z', 'S', '-'] ++ padZerosList 4 (natDec y) ++ padZerosList 2 (natDec m) ++
    padZerosList 2 (natDec d) ++ ['-'] ++ pyUpperList (padZerosList 8 (natHex rand))⟩

/-- Documented ticket-identifier format, following the specification's words:
prefix "ZS-", an 8-digit date, a hyphen, and 8 uppercase hexadecimal
characters. -/
def isUpperHexDigit (c : Char) : Bool := c.isDigit || ('A' ≤ c && c ≤ 'F')

def ticketIdFormatOk (s : String) : Bool :=
  let cs := s.toList
  cs.length == 20 && cs.take 3 == ['Z', 'S', '-'] &&
    ((cs.drop 3).take 8).all Char.isDigit && (cs.getD 11 ' ' == '-') &&
    (cs.drop 12).all isUpperHexDigit

/-! ## Data model (flask_app.py lines 117-254)

Only the columns the claims depend on are carried; `DateTime` columns are
instants modelled as `Nat`. -/

structure User where
  email : String
  password_hash : String
  is_admin : Bool
  is_verified : Bool
  deriving Repr, DecidableEq

structure Ticket where
  id : Nat
  ticket_id : String
  name : String
  email : String
  issue_type : String
  priority : String
  message : String
  status : String
  attachment_filename : Option String
  admin_reply : Option String
  created_at : Nat
  updated_at : Nat
  deriving Repr, DecidableEq

structure OTPVerification where
  id : Nat
  email : String
  otp_code : String
  expires_at : Nat
  verified : Bool
  created_at : Nat
  deriving Repr, DecidableEq

/-- `OTPVerification.is_expired` (flask_app.py lines 209-211). -/
def OTPVerification.is_expired (r : OTPVerification) (now : Nat) : Bool :=
  now > r.expires_at

/-- The modelled application state: the database tables the claims touch, the
server-side session entry `pending_registration`, and the contents of the
uploads directory. -/
structure AppState where
  users : List User
  tickets : List Ticket
  otps : List OTPVerification
  pending_registration : Option (String × String)
  uploads : List String
  deriving Repr, DecidableEq

def AppState.empty : AppState := ⟨[], [], [], none, []⟩

/-- `generate_password_hash` is a salted library call (werkzeug); no claim
depends on the hash value, so it is modelled as a deterministic tagging
function. -/
def generate_password_hash (password : String) : String :=
  "pbkdf2-sha256$" ++ password

/-! ## POST /submit (flask_app.py lines 846-968)

The handler strips the form fields, saves an allowed attachment to the
uploads folder *before* any validation, runs the validation chain, downgrades
an unknown priority to "Medium", and inserts the ticket row.  `ticket_id` has
a unique constraint, so a duplicate identifier makes the commit fail and roll
back (the `except` branch).  The generated ticket id, the attachment
timestamp prefix, the fresh primary key and the current instant are passed in
explicitly.  werkzeug's `secure_filename` sanitisation of the client filename
is not modelled (no claim depends on the sanitised spelling). -/

structure SubmitForm where
  name : String
  email : String
  issue_type : String
  priority : String
  message : String
  attachment : Option String
  deriving Repr, DecidableEq

inductive SubmitResult where
  | missingFields
  | nameTooLong
  | emailTooLong
  | messageTooLong
  | invalidEmail
  | invalidIssueType
  | dbError
  | success
  deriving Repr, DecidableEq

/-- The filename stored for the upload (lines 862-870), `none` when no file
is present or the extension is not allowed. -/
def attachmentStored (ts : String) (att : Option String) : Option String :=
  match att with
  | some fn => if fn ≠ "" ∧ allowed_file fn then some (ts ++ "_" ++ fn) else none
  | none => none

/-- The state after the pre-validation upload save (lines 862-870): the
uploads folder gains the stored file when one is present. -/
def afterUpload (ts : String) (att : Option String) (st : AppState) : AppState :=
  match attachmentStored ts att with
  | some f => { st with uploads := st.uploads ++ [f] }
  | none => st

def submit (form : SubmitForm) (ts tid : String) (newPk now : Nat)
    (st : AppState) : AppState × SubmitResult :=
  let name := pyStrip form.name
  let email := pyStrip form.email
  let issue_type := pyStrip form.issue_type
  let priority := pyStrip form.priority
  let message := pyStrip form.message
  let att := attachmentStored ts form.attachment
  let st1 : AppState := afterUpload ts form.attachment st
  if name = "" ∨ email = "" ∨ issue_type = "" ∨ message = "" then
    (st1, .missingFields)
  else if name.length > 100 then (st1, .nameTooLong)
  else if email.length > 254 then (st1, .emailTooLong)
  else if message.length > 2000 then (st1, .messageTooLong)
  else if ¬ (validate_email email = true) then (st1, .invalidEmail)
  else if issue_type ∉ ALLOWED_ISSUE_TYPES then (st1, .invalidIssueType)
  else
    let priority := if priority ∈ TICKET_PRIORITIES then priority else "Medium"
    if ∃ t ∈ st1.tickets, t.ticket_id = tid then (st1, .dbError)
    else
      ({ st1 with
          tickets := st1.tickets ++
            [{ id := newPk, ticket_id := tid, name := name, email := email,
               issue_type := issue_type, priority := priority,
               message := message, status := "Open",
               attachment_filename := att, admin_reply := none,
               created_at := now, updated_at := now }] }, .success)

/-! ## POST /register (flask_app.py lines 975-1054) -/

inductive RegisterResult where
  | alreadyLoggedIn
  | missingFields
  | invalidEmail
  | passwordMismatch
  | passwordTooShort
  | emailExists
  | otpIssued
  deriving Repr, DecidableEq

def register (rawEmail rawPassword rawConfirm : String) (loggedIn : Bool)
    (otp : String) (newOtpId now : Nat) (st : AppState) :
    AppState × RegisterResult :=
  if loggedIn then (st, .alreadyLoggedIn)
  else
    let email := pyLower (pyStrip rawEmail)
    let password := pyStrip rawPassword
    let confirm := pyStrip rawConfirm
    if email = "" ∨ password = "" ∨ confirm = "" then (st, .missingFields)
    else if ¬ (validate_email email = true) then (st, .invalidEmail)
    else if password ≠ confirm then (st, .passwordMismatch)
    else if password.length < 8 then (st, .passwordTooShort)
    else if ∃ u ∈ st.users, u.email = email then (st, .emailExists)
    else
      let expires_at := now + OTP_EXPIRY_MINUTES * 60
      ({ st with
          otps := st.otps.filter (fun r => !(r.email == email)) ++
            [{ id := newOtpId, email := email, otp_code := otp,
               expires_at := expires_at, verified := false, created_at := now }],
          pending_registration := some (email, password) }, .otpIssued)

/-! ## POST /verify_otp (flask_app.py lines 1107-1181) -/

inductive VerifyResult where
  | noPending
  | emptyCode
  | noRecord
  | expired
  | codeMismatch
  | dbError
  | userCreated
  deriving Repr, DecidableEq

/-- `OTPVerification.query.filter_by(email=..., verified=False)
.order_by(created_at.desc()).first()` — the first row of the stable
descending sort, i.e. the earliest-listed row of maximal `created_at` among
the unverified rows for the email. -/
def pickMax (acc : Option OTPVerification) (r : OTPVerification) :
    Option OTPVerification :=
  match acc with
  | none => some r
  | some b => if r.created_at > b.created_at then some r else some b

def latestOtp (otps : List OTPVerification) (email : String) :
    Option OTPVerification :=
  (otps.filter (fun r => r.email == email && !r.verified)).foldl pickMax none

def verify_otp (rawCode : String) (now : Nat) (st : AppState) :
    AppState × VerifyResult :=
  match st.pending_registration with
  | none => (st, .noPending)
  | some (email, password) =>
    let code := pyStrip rawCode
    if code = "" then (st, .emptyCode)
    else
      match latestOtp st.otps email with
      | none => ({ st with pending_registration := none }, .noRecord)
      | some r =>
        if r.is_expired now then
          ({ st with
              pending_registration := none,
              otps := st.otps.filter (fun q => !(q.id == r.id)) }, .expired)
        else if r.otp_code ≠ code then (st, .codeMismatch)
        else if ∃ u ∈ st.users, u.email = email then
          -- the User email column is unique: the commit raises and rolls back
          (st, .dbError)
        else
          ({ st with
              otps := st.otps.map
                (fun q => if q.id = r.id then { q with verified := true } else q),
              users := st.users ++
                [{ email := email,
                   password_hash := generate_password_hash password,
                   is_admin := email = "zetsuserv@gmail.com",
                   is_verified := true }],
              pending_registration := none }, .userCreated)

/-! ## batch_process_users (flask_app.py lines 357-389)

The callback either returns a Bool or raises, modelled as
`Except String Bool`.  The loop walks the list in slices of `BATCH_SIZE`
(`user_emails[i:i+BATCH_SIZE]` for `i = 0, BATCH_SIZE, ...`); the
`time.sleep(BATCH_DELAY)` between batches does not change the modelled
state. -/

def batchChunks : List String → List (List String)
  | [] => []
  | a :: rest =>
    (a :: rest).take BATCH_SIZE :: batchChunks ((a :: rest).drop BATCH_SIZE)
  termination_by l => l.length
  decreasing_by simp [List.length_drop, BATCH_SIZE]; omega

def processOne (cb : String → Except String Bool) (acc : Nat × Nat)
    (email : String) : Nat × Nat :=
  match cb email with
  | .ok true => (acc.1 + 1, acc.2)
  | .ok false => (acc.1, acc.2 + 1)
  | .error _ => (acc.1, acc.2 + 1)

/-- Returns the pair (success count, failed count). -/
def batch_process_users (user_emails : List String)
    (cb : String → Except String Bool) : Nat × Nat :=
  (batchChunks user_emails).foldl
    (fun acc batch => batch.foldl (processOne cb) acc) (0, 0)

/-! ## GET /export_tickets (flask_app.py lines 1411-1460)

`Ticket.query.order_by(Ticket.created_at.desc()).all()` is a stable sort by
descending creation instant.  The calendar rendering of `strftime('%Y-%m-%d
%H:%M:%S')` is not modelled: the instant is rendered as its numeric value (no
claim depends on the date text). -/

def fmtDateTime (n : Nat) : String := toString n

def exportHeader : List String :=
  ["Ticket ID", "Name", "Email", "Issue Type", "Priority",
   "Status", "Message", "Admin Reply", "Attachment",
   "Created At", "Updated At"]

def ticketCsvRow (t : Ticket) : List String :=
  [t.ticket_id, t.name, t.email, t.issue_type, t.priority,
   t.status, t.message, t.admin_reply.getD "", t.attachment_filename.getD "",
   fmtDateTime t.created_at, fmtDateTime t.updated_at]

def createdDesc (a b : Ticket) : Prop := b.created_at ≤ a.created_at

instance : DecidableRel createdDesc := fun a b => by
  unfold createdDesc; infer_instance

def sortByCreatedDesc (ts : List Ticket) : List Ticket :=
  ts.insertionSort createdDesc

def export_tickets (tickets : List Ticket) : List (List String) :=
  exportHeader :: (sortByCreatedDesc tickets).map ticketCsvRow

/-! ## POST /bulk_resolve (flask_app.py lines 1463-1512) -/

/-- Model of Python `int(str)`: strip whitespace, optional sign, then a
nonempty digit run (Python additionally accepts single underscores between
digits; those never originate from the dashboard form and are not
modelled). -/
def digitsVal (ds : List Char) : Nat :=
  ds.foldl (fun n c => n * 10 + (c.toNat - 48)) 0

def pyParseInt (s : String) : Option Int :=
  let core : List Char → Option Int := fun ds =>
    if ds ≠ [] ∧ ds.all Char.isDigit then some (digitsVal ds) else none
  match pyStripList s.toList with
  | '+' :: ds => core ds
  | '-' :: ds => (core ds).map (fun v => -v)
  | ds => core ds

/-- The mutation applied to a resolved ticket (lines 1500-1501). -/
def resolveTicket (now : Nat) (t : Ticket) : Ticket :=
  { t with status := "Resolved", updated_at := now }

/-- Update of the row with primary key `tid` when it is "Open"; rows are
identified by the unique primary key. -/
def resolveUpd (now : Nat) (tid : Int) (q : Ticket) : Ticket :=
  if (q.id : Int) = tid ∧ q.status = "Open" then resolveTicket now q else q

/-- One iteration of the bulk-resolve loop: `db.session.get(Ticket, tid)`
returns the row with that primary key; when it exists and is "Open" its
status becomes "Resolved", `updated_at` is refreshed and the count grows. -/
def resolveStep (now : Nat) (acc : AppState × Nat) (tid : Int) :
    AppState × Nat :=
  match acc.1.tickets.find? (fun t => (t.id : Int) == tid) with
  | some t =>
    if t.status = "Open" then
      ({ acc.1 with tickets := acc.1.tickets.map (resolveUpd now tid) },
       acc.2 + 1)
    else acc
  | none => acc

def bulk_resolve (sel : List String) (now : Nat) (st : AppState) :
    AppState × Nat :=
  if sel.isEmpty then (st, 0)
  else
    let valid := sel.filterMap pyParseInt
    if valid.isEmpty then (st, 0)
    else valid.foldl (resolveStep now) (st, 0)

/-- Spec-side description of the bulk-resolve effect: exactly the selected
"Open" rows become "Resolved" with `updated_at` refreshed; everything else is
untouched. -/
def resolveAll (now : Nat) (ids : List Int) (ts : List Ticket) : List Ticket :=
  ts.map fun t =>
    if (t.id : Int) ∈ ids ∧ t.status = "Open" then resolveTicket now t else t

/-- Spec-side count: the number of stored tickets that are selected and
currently "Open". -/
def openSelCount (ids : List Int) (ts : List Ticket) : Nat :=
  ts.countP fun t => decide ((t.id : Int) ∈ ids) && decide (t.status = "Open")

/-- The ticket row inserted by an accepted submission. -/
def submittedTicket (form : SubmitForm) (ts tid : String) (newPk now : Nat) :
    Ticket :=
  { id := newPk, ticket_id := tid, name := pyStrip form.name,
    email := pyStrip form.email, issue_type := pyStrip form.issue_type,
    priority := if pyStrip form.priority ∈ TICKET_PRIORITIES then
        pyStrip form.priority else "Medium",
    message := pyStrip form.message, status := "Open",
    attachment_filename := attachmentStored ts form.attachment,
    admin_reply := none, created_at := now, updated_at := now }

/-! ## Concrete sample inputs used by counterexamples and witnesses -/

def cex1Form : SubmitForm :=
  { name := "Alice", email := "a@x.com", issue_type := "Bug Report",
    priority := "Low", message := "urgent problem", attachment := none }

def cex3Form : SubmitForm :=
  { name := "", email := "a@x.com", issue_type := "Bug Report",
    priority := "Medium", message := "hi", attachment := some "a.png" }

def wForm : SubmitForm :=
  { name := "Alice", email := "a@x.com", issue_type := "Bug Report",
    priority := "Low", message := "hello", attachment := none }

def wForm6 : SubmitForm :=
  { name := "Alice", email := "a@x.com", issue_type := "Bug Report",
    priority := "Critical", message := "hello", attachment := none }

def wOtp : OTPVerification :=
  { id := 1, email := "a@x.com", otp_code := "123456", expires_at := 1600,
    verified := false, created_at := 1000 }

def wStOtp : AppState :=
  { users := [], tickets := [], otps := [wOtp],
    pending_registration := some ("a@x.com", "password1"), uploads := [] }

def wUser : User :=
  { email := "a@x.com", password_hash := "h", is_admin := false,
    is_verified := true }

def wStUser : AppState :=
  { users := [wUser], tickets := [], otps := [], pending_registration := none,
    uploads := [] }

def wT1 : Ticket :=
  { id := 1, ticket_id := "T1", name := "n", email := "e", issue_type := "i",
    priority := "Low", message := "m", status := "Open",
    attachment_filename := none, admin_reply := none, created_at := 5,
    updated_at := 5 }

def wT2 : Ticket :=
  { id := 2, ticket_id := "T2", name := "n", email := "e", issue_type := "i",
    priority := "High", message := "m", status := "Resolved",
    attachment_filename := none, admin_reply := none, created_at := 9,
    updated_at := 9 }

def wStTickets : AppState :=
  { users := [], tickets := [wT1, wT2], otps := [], pending_registration := none,
    uploads := [] }

/-! ## Helper lemmas -/

theorem afterUpload_tickets (ts : String) (att : Option String) (st : AppState) :
    (afterUpload ts att st).tickets = st.tickets := by
  unfold afterUpload; split <;> rfl

theorem afterUpload_users (ts : String) (att : Option String) (st : AppState) :
    (afterUpload ts att st).users = st.users := by
  unfold afterUpload; split <;> rfl

theorem afterUpload_otps (ts : String) (att : Option String) (st : AppState) :
    (afterUpload ts att st).otps = st.otps := by
  unfold afterUpload; split <;> rfl

theorem afterUpload_pending (ts : String) (att : Option String) (st : AppState) :
    (afterUpload ts att st).pending_registration = st.pending_registration := by
  unfold afterUpload; split <;> rfl

instance : IsTotal Ticket createdDesc :=
  ⟨fun a b => (Nat.le_total b.created_at a.created_at).imp id id⟩

instance : IsTrans Ticket createdDesc :=
  ⟨fun _ _ _ hab hbc => Nat.le_trans hbc hab⟩

/-- C7: every admin CSV export consists of exactly the fixed header row, in
the fixed order, followed by exactly one data row per stored ticket, the
rows being ordered by `created_at` descending. -/
theorem export_tickets_csv_shape (tickets : List Ticket) :
    export_tickets tickets = exportHeader :: (sortByCreatedDesc tickets).map ticketCsvRow
    ∧ (export_tickets tickets).length = tickets.length + 1
    ∧ (sortByCreatedDesc tickets).Perm tickets
    ∧ (sortByCreatedDesc tickets).Sorted createdDesc := by
  refine ⟨rfl, ?_, ?_, ?_⟩
  · simp [export_tickets, sortByCreatedDesc, List.length_insertionSort]
  · exact List.perm_insertionSort _ _
  · exact List.sorted_insertionSort _ _

/-! ## Evaluation of /submit -/

theorem submit_success_eval (form : SubmitForm) (ts tid : String)
    (newPk now : Nat) (st : AppState)
    (h1 : pyStrip form.name ≠ "") (h2 : pyStrip form.email ≠ "")
    (h4 : pyStrip form.message ≠ "")
    (h5 : (pyStrip form.name).length ≤ 100)
    (h6 : (pyStrip form.email).length ≤ 254)
    (h7 : (pyStrip form.message).length ≤ 2000)
    (h8 : validate_email (pyStrip form.email) = true)
    (h9 : pyStrip form.issue_type ∈ ALLOWED_ISSUE_TYPES)
    (h10 : ∀ t ∈ st.tickets, t.ticket_id ≠ tid) :
    submit form ts tid newPk now st =
      ({ afterUpload ts form.attachment st with
          tickets := st.tickets ++ [submittedTicket form ts tid newPk now] },
       .success) := by
  have h3 : pyStrip form.issue_type ≠ "" := by
    intro h; rw [h] at h9; exact absurd h9 (by decide)
  have hfresh : ¬ ∃ t ∈ (afterUpload ts form.attachment st).tickets,
      t.ticket_id = tid := by
    rw [afterUpload_tickets]
    rintro ⟨t, ht, rfl⟩
    exact h10 t ht rfl
  simp only [submit]
  rw [if_neg (by simp [h1, h2, h3, h4]), if_neg (by omega), if_neg (by omega),
    if_neg (by omega), if_neg (not_not_intro h8), if_neg (not_not_intro h9),
    if_neg hfresh, afterUpload_tickets]
  rfl

/-- C1, counterexample: the submission of the spec's own example message
"urgent problem" — which contains the urgent keyword "urgent" — with
submitted priority "Low" is accepted and stored with priority "Low", not
"High": the v4.0.0 submit handler contains no keyword escalation. -/
theorem submit_urgent_keyword_cex :
    (submit cex1Form "20260101_000000" "ZS-20260101-ABCDEF01" 1 100
        AppState.empty).2 = .success
    ∧ pyStrip cex1Form.message = "urgent problem"
    ∧ (submit cex1Form "20260101_000000" "ZS-20260101-ABCDEF01" 1 100
        AppState.empty).1.tickets.map Ticket.priority = ["Low"] := by
  decide

/-- C3, counterexample: a POST with an empty name but a valid attachment is
rejected, yet stored state has changed — the attachment was saved to the
uploads folder before validation ran. -/
theorem submit_reject_partial_write_cex :
    (submit cex3Form "20260101_000000" "ZS-20260101-ABCDEF01" 1 100
        AppState.empty).2 = .missingFields
    ∧ (submit cex3Form "20260101_000000" "ZS-20260101-ABCDEF01" 1 100
        AppState.empty).1.uploads = ["20260101_000000_a.png"]
    ∧ (submit cex3Form "20260101_000000" "ZS-20260101-ABCDEF01" 1 100
        AppState.empty).1 ≠ AppState.empty := by
  decide

/-- C1 (amended): for every POST to /submit that passes validation, the
ticket is stored with the submitted priority when it is one of the allowed
priorities and with "Medium" otherwise; the message content — urgent
keywords included — has no influence on the stored priority (the v4.0.0
handler performs no keyword escalation). -/
theorem submit_priority_ignores_message (form : SubmitForm) (ts tid : String)
    (newPk now : Nat) (st : AppState)
    (h1 : pyStrip form.name ≠ "") (h2 : pyStrip form.email ≠ "")
    (h4 : pyStrip form.message ≠ "")
    (h5 : (pyStrip form.name).length ≤ 100)
    (h6 : (pyStrip form.email).length ≤ 254)
    (h7 : (pyStrip form.message).length ≤ 2000)
    (h8 : validate_email (pyStrip form.email) = true)
    (h9 : pyStrip form.issue_type ∈ ALLOWED_ISSUE_TYPES)
    (h10 : ∀ t ∈ st.tickets, t.ticket_id ≠ tid) :
    (submit form ts tid newPk now st).2 = .success
    ∧ (submit form ts tid newPk now st).1.tickets =
        st.tickets ++ [submittedTicket form ts tid newPk now]
    ∧ (submittedTicket form ts tid newPk now).priority =
        (if pyStrip form.priority ∈ TICKET_PRIORITIES then pyStrip form.priority
         else "Medium") := by
  have heval := submit_success_eval form ts tid newPk now st
    h1 h2 h4 h5 h6 h7 h8 h9 h10
  exact ⟨by rw [heval], by rw [heval], rfl⟩

/-- C6: a submission that passes every other check but carries a priority
outside the allowed set is not rejected: the ticket is stored with the
default priority "Medium". -/
theorem submit_invalid_priority_defaults_medium (form : SubmitForm)
    (ts tid : String) (newPk now : Nat) (st : AppState)
    (h1 : pyStrip form.name ≠ "") (h2 : pyStrip form.email ≠ "")
    (h4 : pyStrip form.message ≠ "")
    (h5 : (pyStrip form.name).length ≤ 100)
    (h6 : (pyStrip form.email).length ≤ 254)
    (h7 : (pyStrip form.message).length ≤ 2000)
    (h8 : validate_email (pyStrip form.email) = true)
    (h9 : pyStrip form.issue_type ∈ ALLOWED_ISSUE_TYPES)
    (h10 : ∀ t ∈ st.tickets, t.ticket_id ≠ tid)
    (hp : pyStrip form.priority ∉ TICKET_PRIORITIES) :
    (submit form ts tid newPk now st).2 = .success
    ∧ (submit form ts tid newPk now st).1.tickets =
        st.tickets ++ [submittedTicket form ts tid newPk now]
    ∧ (submittedTicket form ts tid newPk now).priority = "Medium" := by
  have heval := submit_success_eval form ts tid newPk now st
    h1 h2 h4 h5 h6 h7 h8 h9 h10
  exact ⟨by rw [heval], by rw [heval], by simp [submittedTicket, if_neg hp]⟩

/-- C3 (amended): a POST to /submit violating any of the validation rules is
rejected with an error outcome, and no database state changes: no ticket row
is created and users, OTP rows and the session are untouched.  (The uploads
folder is exempt: an attached file is saved before validation runs, see the
counterexample.) -/
theorem submit_validation_rejects_no_db_write (form : SubmitForm)
    (ts tid : String) (newPk now : Nat) (st : AppState)
    (hv : pyStrip form.name = "" ∨ pyStrip form.email = ""
        ∨ pyStrip form.issue_type = "" ∨ pyStrip form.message = ""
        ∨ (pyStrip form.name).length > 100
        ∨ (pyStrip form.email).length > 254
        ∨ (pyStrip form.message).length > 2000
        ∨ validate_email (pyStrip form.email) = false
        ∨ pyStrip form.issue_type ∉ ALLOWED_ISSUE_TYPES) :
    ((submit form ts tid newPk now st).2 = .missingFields
      ∨ (submit form ts tid newPk now st).2 = .nameTooLong
      ∨ (submit form ts tid newPk now st).2 = .emailTooLong
      ∨ (submit form ts tid newPk now st).2 = .messageTooLong
      ∨ (submit form ts tid newPk now st).2 = .invalidEmail
      ∨ (submit form ts tid newPk now st).2 = .invalidIssueType)
    ∧ (submit form ts tid newPk now st).1.tickets = st.tickets
    ∧ (submit form ts tid newPk now st).1.users = st.users
    ∧ (submit form ts tid newPk now st).1.otps = st.otps
    ∧ (submit form ts tid newPk now st).1.pending_registration =
        st.pending_registration := by
  simp only [submit]
  split
  next =>
    exact ⟨Or.inl rfl, afterUpload_tickets _ _ _, afterUpload_users _ _ _,
      afterUpload_otps _ _ _, afterUpload_pending _ _ _⟩
  next h1 =>
    split
    next =>
      exact ⟨Or.inr (Or.inl rfl), afterUpload_tickets _ _ _,
        afterUpload_users _ _ _, afterUpload_otps _ _ _,
        afterUpload_pending _ _ _⟩
    next h2 =>
      split
      next =>
        exact ⟨Or.inr (Or.inr (Or.inl rfl)), afterUpload_tickets _ _ _,
          afterUpload_users _ _ _, afterUpload_otps _ _ _,
          afterUpload_pending _ _ _⟩
      next h3 =>
        split
        next =>
          exact ⟨Or.inr (Or.inr (Or.inr (Or.inl rfl))),
            afterUpload_tickets _ _ _, afterUpload_users _ _ _,
            afterUpload_otps _ _ _, afterUpload_pending _ _ _⟩
        next h4 =>
          split
          next =>
            exact ⟨Or.inr (Or.inr (Or.inr (Or.inr (Or.inl rfl)))),
              afterUpload_tickets _ _ _, afterUpload_users _ _ _,
              afterUpload_otps _ _ _, afterUpload_pending _ _ _⟩
          next h5 =>
            split
            next =>
              exact ⟨Or.inr (Or.inr (Or.inr (Or.inr (Or.inr rfl)))),
                afterUpload_tickets _ _ _, afterUpload_users _ _ _,
                afterUpload_otps _ _ _, afterUpload_pending _ _ _⟩
            next h6 =>
              exfalso
              push_neg at h1
              rcases hv with h | h | h | h | h | h | h | h | h
              · exact h1.1 h
              · exact h1.2.1 h
              · exact h1.2.2.1 h
              · exact h1.2.2.2 h
              · exact h2 h
              · exact h3 h
              · exact h4 h
              · exact h5 fun hv' => by rw [h] at hv'; exact Bool.noConfusion hv'
              · exact h6 h

/-! ## C9: ticket identifier format and uniqueness -/

theorem digitChar_isDigit (n : Nat) (h : n < 10) :
    (digitChar n).isDigit = true := by
  interval_cases n <;> decide

theorem hexChar_upper_ok (n : Nat) (h : n < 16) :
    isUpperHexDigit (hexChar n).toUpper = true := by
  interval_cases n <;> decide

theorem natDec_all_digits (n : Nat) : (natDec n).all Char.isDigit = true := by
  induction n using natDec.induct with
  | case1 n h => rw [natDec, dif_pos h]; simp [digitChar_isDigit n h]
  | case2 n h ih =>
    rw [natDec, dif_neg h]
    simp only [List.all_append, ih, Bool.true_and]
    simp [digitChar_isDigit _ (Nat.mod_lt _ (by omega))]

theorem natHex_all_upper (n : Nat) :
    (natHex n).all (fun c => isUpperHexDigit c.toUpper) = true := by
  induction n using natHex.induct with
  | case1 n h => rw [natHex, dif_pos h]; simp [hexChar_upper_ok n h]
  | case2 n h ih =>
    rw [natHex, dif_neg h]
    simp only [List.all_append, ih, Bool.true_and]
    simp [hexChar_upper_ok _ (Nat.mod_lt _ (by omega))]

theorem natDec_length_le (n : Nat) : ∀ k : Nat, 1 ≤ k → n < 10 ^ k →
    (natDec n).length ≤ k := by
  induction n using Nat.strong_induction_on with
  | _ n ih =>
    intro k hk h
    by_cases h10 : n < 10
    · rw [natDec, dif_pos h10]; simpa using hk
    · rw [natDec, dif_neg h10]
      have hk2 : 2 ≤ k := by
        rcases Nat.lt_or_ge k 2 with hlt | hge
        · interval_cases k <;> omega
        · exact hge
      have hpow : 10 ^ k = 10 ^ (k - 1) * 10 := by
        rw [← pow_succ]; congr 1; omega
      have hdiv : n / 10 < 10 ^ (k - 1) := by
        rw [Nat.div_lt_iff_lt_mul (by omega)]
        omega
      have := ih (n / 10) (Nat.div_lt_self (by omega) (by omega))
        (k - 1) (by omega) hdiv
      simp only [List.length_append, List.length_cons, List.length_nil]
      omega

theorem natHex_length_le (n : Nat) : ∀ k : Nat, 1 ≤ k → n < 16 ^ k →
    (natHex n).length ≤ k := by
  induction n using Nat.strong_induction_on with
  | _ n ih =>
    intro k hk h
    by_cases h16 : n < 16
    · rw [natHex, dif_pos h16]; simpa using hk
    · rw [natHex, dif_neg h16]
      have hk2 : 2 ≤ k := by
        rcases Nat.lt_or_ge k 2 with hlt | hge
        · interval_cases k <;> omega
        · exact hge
      have hpow : 16 ^ k = 16 ^ (k - 1) * 16 := by
        rw [← pow_succ]; congr 1; omega
      have hdiv : n / 16 < 16 ^ (k - 1) := by
        rw [Nat.div_lt_iff_lt_mul (by omega)]
        omega
      have := ih (n / 16) (Nat.div_lt_self (by omega) (by omega))
        (k - 1) (by omega) hdiv
      simp only [List.length_append, List.length_cons, List.length_nil]
      omega

theorem padZerosList_length (w : Nat) (cs : List Char) (h : cs.length ≤ w) :
    (padZerosList w cs).length = w := by
  simp [padZerosList]; omega

theorem padZerosList_all (w : Nat) (p : Char → Bool) (cs : List Char)
    (hp : p '0' = true) (h : cs.all p = true) :
    (padZerosList w cs).all p = true := by
  simp only [padZerosList, List.all_append, h, Bool.and_true]
  simp only [List.all_eq_true]
  intro c hc
  rw [List.eq_of_mem_replicate hc]
  exact hp

/-! ## C2, C4, C5: OTP-gated registration -/

theorem foldl_pickMax_mem :
    ∀ (l : List OTPVerification) (acc : Option OTPVerification)
      (r : OTPVerification), l.foldl pickMax acc = some r →
      acc = some r ∨ r ∈ l := by
  intro l
  induction l with
  | nil => intro acc r h; exact Or.inl h
  | cons a l ih =>
    intro acc r h
    rcases ih (pickMax acc a) r h with hp | hm
    · cases acc with
      | none =>
        simp only [pickMax] at hp
        exact Or.inr (by rw [← Option.some_inj.mp hp]; exact List.mem_cons_self a l)
      | some b =>
        simp only [pickMax] at hp
        split at hp
        · exact Or.inr (by rw [← Option.some_inj.mp hp]; exact List.mem_cons_self a l)
        · exact Or.inl hp
    · exact Or.inr (List.mem_cons_of_mem _ hm)

theorem latestOtp_mem (otps : List OTPVerification) (e : String)
    (r : OTPVerification) (h : latestOtp otps e = some r) :
    r ∈ otps ∧ r.email = e ∧ r.verified = false := by
  unfold latestOtp at h
  rcases foldl_pickMax_mem _ _ _ h with h' | h'
  · exact Option.noConfusion h'
  · have hmf := List.mem_filter.mp h'
    have hb := hmf.2
    simp only [Bool.and_eq_true, beq_iff_eq, Bool.not_eq_eq_eq_not,
      Bool.not_true] at hb
    exact ⟨hmf.1, hb.1, by simpa using hb.2⟩

/-- C2: with a pending registration for an email in the session, a User row
is created by POST /verify_otp exactly when the submitted code equals the
code of the most recent unverified OTP row for that email and that row has
not expired; in every other case no user is created and the request either
redirects back to registration or re-prompts for the code. -/
theorem verify_otp_user_created_iff (rawCode : String) (now : Nat)
    (st : AppState) (e pw : String)
    (hp : st.pending_registration = some (e, pw))
    (hcodes : ∀ r ∈ st.otps, r.otp_code.length = OTP_LENGTH)
    (hnouser : ∀ u ∈ st.users, u.email ≠ e) :
    ((∃ u, (verify_otp rawCode now st).1.users = st.users ++ [u]) ↔
      (∃ r, latestOtp st.otps e = some r ∧ ¬ now > r.expires_at
        ∧ r.otp_code = pyStrip rawCode))
    ∧ ((¬ ∃ r, latestOtp st.otps e = some r ∧ ¬ now > r.expires_at
        ∧ r.otp_code = pyStrip rawCode) →
      (verify_otp rawCode now st).1.users = st.users
      ∧ ((verify_otp rawCode now st).2 = .noRecord
        ∨ (verify_otp rawCode now st).2 = .expired
        ∨ (verify_otp rawCode now st).2 = .emptyCode
        ∨ (verify_otp rawCode now st).2 = .codeMismatch)) := by
  by_cases hc : pyStrip rawCode = ""
  · have heval : verify_otp rawCode now st = (st, .emptyCode) := by
      simp only [verify_otp, hp]
      rw [if_pos hc]
    rw [heval]
    refine ⟨⟨?_, ?_⟩, fun _ => ⟨rfl, Or.inr (Or.inr (Or.inl rfl))⟩⟩
    · rintro ⟨u, hu⟩
      simp at hu
    · rintro ⟨r, hl, _, hcode⟩
      have hmem := (latestOtp_mem _ _ _ hl).1
      have h6 := hcodes r hmem
      rw [hcode, hc] at h6
      simp [OTP_LENGTH] at h6
  · cases hl : latestOtp st.otps e with
    | none =>
      have heval : verify_otp rawCode now st =
          ({ st with pending_registration := none }, .noRecord) := by
        simp only [verify_otp, hp, hl]
        rw [if_neg hc]
      rw [heval]
      refine ⟨⟨?_, ?_⟩, fun _ => ⟨rfl, Or.inl rfl⟩⟩
      · rintro ⟨u, hu⟩
        simp at hu
      · rintro ⟨r, hr, _, _⟩
        exact Option.noConfusion hr
    | some r =>
      by_cases hexp : r.is_expired now
      · have heval : verify_otp rawCode now st =
            ({ st with
                pending_registration := none,
                otps := st.otps.filter (fun q => !(q.id == r.id)) }, .expired) := by
          simp only [verify_otp, hp, hl]
          rw [if_neg hc, if_pos hexp]
        rw [heval]
        have hgt : now > r.expires_at := by
          simpa [OTPVerification.is_expired] using hexp
        refine ⟨⟨?_, ?_⟩, fun _ => ⟨rfl, Or.inr (Or.inl rfl)⟩⟩
        · rintro ⟨u, hu⟩
          simp at hu
        · rintro ⟨r', hr', hne, _⟩
          rw [← Option.some_inj.mp hr'] at hne
          exact (hne hgt).elim
      · have hle : ¬ now > r.expires_at := by
          simpa [OTPVerification.is_expired] using hexp
        by_cases hcode : r.otp_code ≠ pyStrip rawCode
        · have heval : verify_otp rawCode now st = (st, .codeMismatch) := by
            simp only [verify_otp, hp, hl]
            rw [if_neg hc, if_neg hexp, if_pos hcode]
          rw [heval]
          refine ⟨⟨?_, ?_⟩, fun _ => ⟨rfl, Or.inr (Or.inr (Or.inr rfl))⟩⟩
          · rintro ⟨u, hu⟩
            simp at hu
          · rintro ⟨r', hr', _, hc'⟩
            rw [← Option.some_inj.mp hr'] at hc'
            exact (hcode hc').elim
        · push_neg at hcode
          have hnex : ¬ ∃ u ∈ st.users, u.email = e := by
            rintro ⟨u, hu, he⟩
            exact hnouser u hu he
          have heval : verify_otp rawCode now st =
              ({ st with
                  otps := st.otps.map
                    (fun q => if q.id = r.id then { q with verified := true } else q),
                  users := st.users ++
                    [{ email := e,
                       password_hash := generate_password_hash pw,
                       is_admin := e = "zetsuserv@gmail.com",
                       is_verified := true }],
                  pending_registration := none }, .userCreated) := by
            simp only [verify_otp, hp, hl]
            rw [if_neg hc, if_neg hexp, if_neg (by simpa using hcode), if_neg hnex]
          rw [heval]
          refine ⟨⟨fun _ => ⟨r, rfl, hle, hcode⟩, fun _ => ⟨_, rfl⟩⟩,
            fun hcon => absurd ⟨r, rfl, hle, hcode⟩ hcon⟩

/-- C4: a POST to /verify_otp whose most recent unverified OTP row has
expired fails, deletes that row, clears the pending-registration session
entry, and creates no user. -/
theorem verify_otp_expired_cleanup (rawCode : String) (now : Nat)
    (st : AppState) (e pw : String) (r : OTPVerification)
    (hp : st.pending_registration = some (e, pw))
    (hc : pyStrip rawCode ≠ "")
    (hl : latestOtp st.otps e = some r)
    (hexp : now > r.expires_at) :
    (verify_otp rawCode now st).2 = .expired
    ∧ (verify_otp rawCode now st).1.users = st.users
    ∧ (verify_otp rawCode now st).1.otps =
        st.otps.filter (fun q => !(q.id == r.id))
    ∧ (verify_otp rawCode now st).1.pending_registration = none := by
  simp only [verify_otp, hp, hl]
  rw [if_neg hc,
    if_pos (show r.is_expired now = true by
      simp [OTPVerification.is_expired, hexp])]
  exact ⟨rfl, rfl, rfl, rfl⟩

/-- C5: a POST to /register with an email that already has a User row is
rejected before an OTP is issued: the state — OTP rows, users, session —
is completely unchanged and the outcome is not the OTP-issuing one (so no
OTP email is sent). -/
theorem register_existing_email_rejected (rawEmail rawPassword rawConfirm : String)
    (loggedIn : Bool) (otp : String) (newOtpId now : Nat) (st : AppState)
    (hex : ∃ u ∈ st.users, u.email = pyLower (pyStrip rawEmail)) :
    (register rawEmail rawPassword rawConfirm loggedIn otp newOtpId now st).1 = st
    ∧ (register rawEmail rawPassword rawConfirm loggedIn otp newOtpId now st).2
        ≠ .otpIssued := by
  simp only [register]
  split
  next => exact ⟨rfl, by simp⟩
  next =>
    split
    next => exact ⟨rfl, by simp⟩
    next h1 =>
      split
      next => exact ⟨rfl, by simp⟩
      next h2 =>
        split
        next => exact ⟨rfl, by simp⟩
        next h3 =>
          split
          next => exact ⟨rfl, by simp⟩
          next h4 =>
            -- the final branch: `split` has already discharged the
            -- existing-user test from `hex`, leaving the emailExists outcome
            exact ⟨rfl, by simp⟩

theorem ticketIdFormatOk_parts (A B C D : List Char)
    (hA : A.length = 4) (hB : B.length = 2) (hC : C.length = 2)
    (hD : D.length = 8) (hAd : A.all Char.isDigit = true)
    (hBd : B.all Char.isDigit = true) (hCd : C.all Char.isDigit = true)
    (hDd : D.all isUpperHexDigit = true) :
    ticketIdFormatOk ⟨['Z', 'S', '-'] ++ A ++ B ++ C ++ ['-'] ++ D⟩ = true := by
  have hcs : (String.mk (['Z', 'S', '-'] ++ A ++ B ++ C ++ ['-'] ++ D)).toList
      = 'Z' :: 'S' :: '-' :: (A ++ (B ++ (C ++ ('-' :: D)))) := by
    simp
  simp only [ticketIdFormatOk, hcs, Bool.and_eq_true]
  refine ⟨⟨⟨⟨?_, ?_⟩, ?_⟩, ?_⟩, ?_⟩
  · have h20 : ('Z' :: 'S' :: '-' :: (A ++ (B ++ (C ++ ('-' :: D))))).length = 20 := by
      simp [hA, hB, hC, hD]
    rw [h20]; rfl
  · simp
  · have hdrop : ('Z' :: 'S' :: '-' :: (A ++ (B ++ (C ++ ('-' :: D))))).drop 3
        = ((A ++ B) ++ C) ++ ('-' :: D) := by
      simp [List.append_assoc]
    rw [hdrop, List.take_left' (by simp [hA, hB, hC])]
    simp [List.all_append, hAd, hBd, hCd]
  · have hsplit : 'Z' :: 'S' :: '-' :: (A ++ (B ++ (C ++ ('-' :: D))))
        = ('Z' :: 'S' :: '-' :: ((A ++ B) ++ C)) ++ ('-' :: D) := by
      simp [List.append_assoc]
    rw [hsplit, List.getD_eq_getElem?_getD,
      List.getElem?_append_right (by simp [hA, hB, hC])]
    simp [hA, hB, hC]
  · have hsplit : 'Z' :: 'S' :: '-' :: (A ++ (B ++ (C ++ ('-' :: D))))
        = ('Z' :: 'S' :: '-' :: ((A ++ B) ++ C) ++ ['-']) ++ D := by
      simp [List.append_assoc]
    rw [hsplit, List.drop_left' (by simp [hA, hB, hC])]
    exact hDd

theorem generate_ticket_id_format (y m d r : Nat) (hy : y < 10000)
    (hm : m < 100) (hd : d < 100) (hr : r < 2 ^ 32) :
    ticketIdFormatOk (generate_ticket_id y m d r) = true := by
  have hp4 : (10 : Nat) ^ 4 = 10000 := by norm_num
  have hp2 : (10 : Nat) ^ 2 = 100 := by norm_num
  have hp16 : (16 : Nat) ^ 8 = 2 ^ 32 := by norm_num
  apply ticketIdFormatOk_parts
  · exact padZerosList_length _ _ (natDec_length_le y 4 (by omega) (by omega))
  · exact padZerosList_length _ _ (natDec_length_le m 2 (by omega) (by omega))
  · exact padZerosList_length _ _ (natDec_length_le d 2 (by omega) (by omega))
  · rw [pyUpperList, List.length_map]
    exact padZerosList_length _ _ (natHex_length_le r 8 (by omega) (by omega))
  · exact padZerosList_all _ _ _ (by decide) (natDec_all_digits y)
  · exact padZerosList_all _ _ _ (by decide) (natDec_all_digits m)
  · exact padZerosList_all _ _ _ (by decide) (natDec_all_digits d)
  · rw [pyUpperList, List.all_map]
    exact padZerosList_all _ _ _ (by decide) (natHex_all_upper r)

/-- C9: an accepted submission whose identifier comes from
`generate_ticket_id` stores a ticket whose `ticket_id` matches the
documented format — "ZS-", an 8-digit date, a hyphen, 8 uppercase
hexadecimal characters — and the stored identifiers remain pairwise
distinct (the ticket_id column is unique, so a colliding insert is
refused). -/
theorem submit_ticket_id_format_and_unique (y m d r : Nat)
    (form : SubmitForm) (ts tid : String) (newPk now : Nat) (st : AppState)
    (htid : tid = generate_ticket_id y m d r)
    (hy : y < 10000) (hm : m < 100) (hd : d < 100) (hr : r < 2 ^ 32)
    (h1 : pyStrip form.name ≠ "") (h2 : pyStrip form.email ≠ "")
    (h4 : pyStrip form.message ≠ "")
    (h5 : (pyStrip form.name).length ≤ 100)
    (h6 : (pyStrip form.email).length ≤ 254)
    (h7 : (pyStrip form.message).length ≤ 2000)
    (h8 : validate_email (pyStrip form.email) = true)
    (h9 : pyStrip form.issue_type ∈ ALLOWED_ISSUE_TYPES)
    (h10 : ∀ t ∈ st.tickets, t.ticket_id ≠ tid)
    (hnd : (st.tickets.map Ticket.ticket_id).Nodup) :
    (submit form ts tid newPk now st).2 = .success
    ∧ ticketIdFormatOk tid = true
    ∧ (((submit form ts tid newPk now st).1.tickets).map Ticket.ticket_id).Nodup := by
  have heval := submit_success_eval form ts tid newPk now st
    h1 h2 h4 h5 h6 h7 h8 h9 h10
  refine ⟨by rw [heval],
    by rw [htid]; exact generate_ticket_id_format y m d r hy hm hd hr, ?_⟩
  rw [heval]
  show ((st.tickets ++ [submittedTicket form ts tid newPk now]).map
      Ticket.ticket_id).Nodup
  have hmap : ((st.tickets ++ [submittedTicket form ts tid newPk now]).map
      Ticket.ticket_id) = st.tickets.map Ticket.ticket_id ++ [tid] := by
    simp [submittedTicket]
  rw [hmap, List.nodup_append]
  refine ⟨hnd, List.nodup_singleton _, ?_⟩
  intro x hx
  simp only [List.mem_map] at hx
  obtain ⟨t, ht, rfl⟩ := hx
  simp only [List.mem_singleton]
  exact h10 t ht

theorem batchChunks_flatten (l : List String) : (batchChunks l).flatten = l := by
  induction l using batchChunks.induct with
  | case1 => rw [batchChunks]; rfl
  | case2 a rest ih =>
    rw [batchChunks]
    simp only [List.flatten_cons, ih]
    exact List.take_append_drop BATCH_SIZE (a :: rest)

theorem foldl_processOne_sum (cb : String → Except String Bool) :
    ∀ (l : List String) (s f : Nat),
      (l.foldl (processOne cb) (s, f)).1 + (l.foldl (processOne cb) (s, f)).2 =
        s + f + l.length := by
  intro l
  induction l with
  | nil => intro s f; simp
  | cons a l ih =>
    intro s f
    show ((l.foldl (processOne cb) (processOne cb (s, f) a)).1 +
      (l.foldl (processOne cb) (processOne cb (s, f) a)).2 = _)
    rcases h : cb a with e | b
    · simp only [processOne, h]
      rw [ih s (f + 1)]; simp [List.length_cons]; omega
    · cases b
      · simp only [processOne, h]
        rw [ih s (f + 1)]; simp [List.length_cons]; omega
      · simp only [processOne, h]
        rw [ih (s + 1) f]; simp [List.length_cons]; omega

/-- C8: the batch loop visits each recipient of the list exactly once, in
order, through fixed-size chunks; a callback failure (a `false` return or an
exception) is counted as failed and does not stop processing, so the success
and failed counts always sum to the number of input emails. -/
theorem batch_process_users_counts (user_emails : List String)
    (cb : String → Except String Bool) :
    batch_process_users user_emails cb = user_emails.foldl (processOne cb) (0, 0)
    ∧ (batch_process_users user_emails cb).1 +
        (batch_process_users user_emails cb).2 = user_emails.length := by
  have hflat : batch_process_users user_emails cb =
      user_emails.foldl (processOne cb) (0, 0) := by
    unfold batch_process_users
    rw [← List.foldl_flatten, batchChunks_flatten]
  refine ⟨hflat, ?_⟩
  rw [hflat]
  simpa using foldl_processOne_sum cb user_emails 0 0

/-! ## C10: bulk resolve -/

theorem resolveUpd_id (now : Nat) (tid : Int) (q : Ticket) :
    (resolveUpd now tid q).id = q.id := by
  unfold resolveUpd; split <;> rfl

theorem countP_split_disjoint {α : Type} (p q pq : α → Bool) :
    ∀ l : List α, (∀ x ∈ l, pq x = true ↔ (p x = true ∨ q x = true)) →
    (∀ x ∈ l, ¬(p x = true ∧ q x = true)) →
    l.countP pq = l.countP p + l.countP q := by
  intro l
  induction l with
  | nil => intro _ _; simp
  | cons a l ih =>
    intro hiff hd
    have hrest := ih (fun x hx => hiff x (List.mem_cons_of_mem a hx))
      (fun x hx => hd x (List.mem_cons_of_mem a hx))
    have hha := hiff a (List.mem_cons_self a l)
    have hda := hd a (List.mem_cons_self a l)
    simp only [List.countP_cons, hrest]
    by_cases hp : p a = true <;> by_cases hq : q a = true
    · exact absurd ⟨hp, hq⟩ hda
    · have : pq a = true := hha.mpr (Or.inl hp)
      simp [hp, hq, this]; omega
    · have : pq a = true := hha.mpr (Or.inr hq)
      simp [hp, hq, this]; omega
    · have : ¬ pq a = true := fun h => (hha.mp h).elim hp hq
      simp [hp, hq, this]

theorem countP_eq_one_unique {α : Type} (p : α → Bool) :
    ∀ (l : List α), l.Nodup → ∀ t, t ∈ l → p t = true →
    (∀ x ∈ l, p x = true → x = t) → l.countP p = 1 := by
  intro l
  induction l with
  | nil => intro _ t ht; exact absurd ht (List.not_mem_nil t)
  | cons a l ih =>
    intro hnd t ht hp hu
    rcases List.mem_cons.mp ht with rfl | htl
    · have hzero : l.countP p = 0 := by
        rw [List.countP_eq_zero]
        intro x hx hpx
        have := hu x (List.mem_cons_of_mem t hx) hpx
        subst this
        exact (List.nodup_cons.mp hnd).1 hx
      simp [List.countP_cons, hzero, hp]
    · have hpa : ¬ p a = true := by
        intro hpa
        have := hu a (List.mem_cons_self a l) hpa
        subst this
        exact (List.nodup_cons.mp hnd).1 htl
      rw [List.countP_cons]
      rw [ih (List.nodup_cons.mp hnd).2 t htl hp
        (fun x hx => hu x (List.mem_cons_of_mem a hx))]
      simp [hpa]

theorem resolveAll_nil (ts : List Ticket) (now : Nat) :
    resolveAll now [] ts = ts := by
  unfold resolveAll
  have h : ∀ t ∈ ts, (if (t.id : Int) ∈ ([] : List Int) ∧ t.status = "Open"
      then resolveTicket now t else t) = t := by
    intro t _
    simp
  rw [List.map_congr_left h]
  exact List.map_id ts

theorem openSelCount_nil (ts : List Ticket) :
    openSelCount [] ts = 0 := by
  unfold openSelCount
  rw [List.countP_eq_zero]
  intro t _
  simp

theorem resolveLoop_spec (now : Nat) :
    ∀ (ids : List Int) (st : AppState) (c : Nat),
      (st.tickets.map Ticket.id).Nodup →
      ids.foldl (resolveStep now) (st, c) =
        ({ st with tickets := resolveAll now ids st.tickets },
         c + openSelCount ids st.tickets) := by
  intro ids
  induction ids with
  | nil =>
    intro st c hnd
    simp [resolveAll_nil, openSelCount_nil]
  | cons a ids ih =>
    intro st c hnd
    have hRO : ¬ ("Resolved" : String) = "Open" := by decide
    rw [List.foldl_cons]
    cases hfind : st.tickets.find? (fun t => (t.id : Int) == a) with
    | none =>
      have hnone : ∀ t ∈ st.tickets, ¬((t.id : Int) = a) := by
        intro t ht
        have := List.find?_eq_none.mp hfind t ht
        simpa using this
      have hstep : resolveStep now (st, c) a = (st, c) := by
        simp [resolveStep, hfind]
      rw [hstep, ih st c hnd]
      have h1 : resolveAll now ids st.tickets = resolveAll now (a :: ids) st.tickets := by
        unfold resolveAll
        refine List.map_congr_left fun t ht => ?_
        have hne := hnone t ht
        simp [List.mem_cons, hne]
      have h2 : openSelCount ids st.tickets = openSelCount (a :: ids) st.tickets := by
        unfold openSelCount
        refine List.countP_congr fun t ht => ?_
        have hne := hnone t ht
        simp [List.mem_cons, hne]
      rw [h1, h2]
    | some t =>
      have htmem : t ∈ st.tickets := List.mem_of_find?_eq_some hfind
      have htid : (t.id : Int) = a := by simpa using List.find?_some hfind
      have hinj : ∀ q ∈ st.tickets, (q.id : Int) = a → q = t := by
        intro q hq hqa
        exact List.inj_on_of_nodup_map hnd hq htmem
          (Int.natCast_inj.mp (hqa.trans htid.symm))
      by_cases hopen : t.status = "Open"
      · have hstep : resolveStep now (st, c) a =
            ({ st with tickets := st.tickets.map (resolveUpd now a) }, c + 1) := by
          simp [resolveStep, hfind, hopen]
        rw [hstep]
        have hcomp : Ticket.id ∘ resolveUpd now a = Ticket.id :=
          funext fun q => resolveUpd_id now a q
        have hnd' : (((st.tickets.map (resolveUpd now a)).map Ticket.id)).Nodup := by
          rw [List.map_map, hcomp]
          exact hnd
        rw [ih _ (c + 1) hnd']
        have hstate : resolveAll now ids (st.tickets.map (resolveUpd now a)) =
            resolveAll now (a :: ids) st.tickets := by
          unfold resolveAll
          rw [List.map_map]
          refine List.map_congr_left fun q hq => ?_
          by_cases hqa : (q.id : Int) = a
          · have hq_eq : q = t := hinj q hq hqa
            subst hq_eq
            have hupd : resolveUpd now a q = resolveTicket now q := by
              simp [resolveUpd, hqa, hopen]
            simp [Function.comp, hupd, resolveTicket, List.mem_cons, hqa,
              hopen, hRO]
          · have hupd : resolveUpd now a q = q := by
              simp [resolveUpd, hqa]
            simp [Function.comp, hupd, List.mem_cons, hqa]
        have hmapped : openSelCount ids (st.tickets.map (resolveUpd now a)) =
            st.tickets.countP (fun q => decide ((q.id : Int) ∈ ids)
              && decide (q.status = "Open") && decide (¬ (q.id : Int) = a)) := by
          unfold openSelCount
          rw [List.countP_map]
          refine List.countP_congr fun q hq => ?_
          by_cases hqa : (q.id : Int) = a
          · have hq_eq : q = t := hinj q hq hqa
            subst hq_eq
            have hupd : resolveUpd now a q = resolveTicket now q := by
              simp [resolveUpd, hqa, hopen]
            simp [Function.comp, hupd, resolveTicket, hqa, hRO]
          · have hupd : resolveUpd now a q = q := by
              simp [resolveUpd, hqa]
            simp [Function.comp, hupd, hqa]
        have hsplit : openSelCount (a :: ids) st.tickets =
            st.tickets.countP (fun q => decide ((q.id : Int) = a)
              && decide (q.status = "Open"))
            + st.tickets.countP (fun q => decide ((q.id : Int) ∈ ids)
              && decide (q.status = "Open") && decide (¬ (q.id : Int) = a)) := by
          unfold openSelCount
          refine countP_split_disjoint _ _ _ st.tickets (fun q _ => ?_)
            (fun q _ => ?_)
          · constructor
            · intro h
              simp only [Bool.and_eq_true, decide_eq_true_eq,
                List.mem_cons] at h
              rcases h with ⟨ha | hm, ho⟩
              · exact Or.inl (by simp [ha, ho])
              · by_cases hqa : (q.id : Int) = a
                · exact Or.inl (by simp [hqa, ho])
                · exact Or.inr (by simp [hm, ho, hqa])
            · intro h
              rcases h with h | h <;>
                simp only [Bool.and_eq_true, decide_eq_true_eq] at h
              · simp [List.mem_cons, h.1, h.2]
              · simp [List.mem_cons, h.1.1, h.1.2, h.2]
          · rintro ⟨h1, h2⟩
            simp only [Bool.and_eq_true, decide_eq_true_eq] at h1 h2
            exact h2.2 h1.1
        have hone : st.tickets.countP (fun q => decide ((q.id : Int) = a)
            && decide (q.status = "Open")) = 1 := by
          refine countP_eq_one_unique _ st.tickets (List.Nodup.of_map _ hnd)
            t htmem (by simp [htid, hopen]) ?_
          intro q hq hpq
          simp only [Bool.and_eq_true, decide_eq_true_eq] at hpq
          exact hinj q hq hpq.1
        have hcount : c + 1 + openSelCount ids (st.tickets.map (resolveUpd now a)) =
            c + openSelCount (a :: ids) st.tickets := by
          rw [hmapped, hsplit, hone]
          omega
        rw [hstate, hcount]
      · have hstep : resolveStep now (st, c) a = (st, c) := by
          simp [resolveStep, hfind, hopen]
        rw [hstep, ih st c hnd]
        have hkey : ∀ q ∈ st.tickets, ¬((q.id : Int) = a ∧ q.status = "Open") := by
          rintro q hq ⟨hqa, hqopen⟩
          exact hopen ((hinj q hq hqa) ▸ hqopen)
        have h1 : resolveAll now ids st.tickets = resolveAll now (a :: ids) st.tickets := by
          unfold resolveAll
          refine List.map_congr_left fun q hq => ?_
          by_cases hqa : (q.id : Int) = a
          · have ho : ¬ q.status = "Open" := fun ho => hkey q hq ⟨hqa, ho⟩
            simp [List.mem_cons, hqa, ho]
          · simp [List.mem_cons, hqa]
        have h2 : openSelCount ids st.tickets = openSelCount (a :: ids) st.tickets := by
          unfold openSelCount
          refine List.countP_congr fun q hq => ?_
          by_cases hqa : (q.id : Int) = a
          · have ho : ¬ q.status = "Open" := fun ho => hkey q hq ⟨hqa, ho⟩
            simp [List.mem_cons, hqa, ho]
          · simp [List.mem_cons, hqa]
        rw [h1, h2]

/-- C10: a POST to /bulk_resolve changes exactly the selected tickets that
are currently "Open" — each becomes "Resolved" with `updated_at` refreshed —
while selected tickets in other statuses, unparseable or unmatched ids, and
unselected tickets are untouched, every other table is untouched, and the
reported count equals the number of tickets actually transitioned. -/
theorem bulk_resolve_frame (sel : List String) (now : Nat) (st : AppState)
    (hnd : (st.tickets.map Ticket.id).Nodup) :
    (bulk_resolve sel now st).1.tickets =
      resolveAll now (sel.filterMap pyParseInt) st.tickets
    ∧ (bulk_resolve sel now st).2 =
        openSelCount (sel.filterMap pyParseInt) st.tickets
    ∧ (bulk_resolve sel now st).1.users = st.users
    ∧ (bulk_resolve sel now st).1.otps = st.otps
    ∧ (bulk_resolve sel now st).1.pending_registration = st.pending_registration
    ∧ (bulk_resolve sel now st).1.uploads = st.uploads := by
  have hid : ∀ ids : List Int, ids = [] →
      resolveAll now ids st.tickets = st.tickets ∧
      openSelCount ids st.tickets = 0 := by
    rintro _ rfl
    exact ⟨resolveAll_nil st.tickets now, openSelCount_nil st.tickets⟩
  by_cases hsel : sel.isEmpty
  · have hids : sel.filterMap pyParseInt = [] := by
      rw [List.isEmpty_iff.mp hsel]; rfl
    obtain ⟨ha, hb⟩ := hid _ hids
    have heval : bulk_resolve sel now st = (st, 0) := by
      simp [bulk_resolve, hsel]
    rw [heval, ha, hb]
    exact ⟨rfl, rfl, rfl, rfl, rfl, rfl⟩
  · by_cases hvalid : (sel.filterMap pyParseInt).isEmpty
    · obtain ⟨ha, hb⟩ := hid _ (List.isEmpty_iff.mp hvalid)
      have heval : bulk_resolve sel now st = (st, 0) := by
        simp [bulk_resolve, hsel, hvalid]
      rw [heval, ha, hb]
      exact ⟨rfl, rfl, rfl, rfl, rfl, rfl⟩
    · have heval : bulk_resolve sel now st =
          (sel.filterMap pyParseInt).foldl (resolveStep now) (st, 0) := by
        simp [bulk_resolve, hsel, hvalid]
      rw [heval, resolveLoop_spec now _ st 0 hnd]
      exact ⟨rfl, Nat.zero_add _, rfl, rfl, rfl, rfl⟩

/-! ## Witnesses: each hypothesis-bearing claim theorem applied at a
concrete input -/

/-- Witness for the C1 amended theorem at a concrete valid submission. -/
theorem submit_priority_ignores_message_witness :
    pyStrip wForm.name ≠ "" ∧ pyStrip wForm.email ≠ ""
    ∧ pyStrip wForm.message ≠ ""
    ∧ (pyStrip wForm.name).length ≤ 100
    ∧ (pyStrip wForm.email).length ≤ 254
    ∧ (pyStrip wForm.message).length ≤ 2000
    ∧ validate_email (pyStrip wForm.email) = true
    ∧ pyStrip wForm.issue_type ∈ ALLOWED_ISSUE_TYPES
    ∧ (∀ t ∈ AppState.empty.tickets, t.ticket_id ≠ "ZS-20260102-00000001")
    ∧ ((submit wForm "20260102_000000" "ZS-20260102-00000001" 1 100
          AppState.empty).2 = .success
      ∧ (submit wForm "20260102_000000" "ZS-20260102-00000001" 1 100
          AppState.empty).1.tickets =
          AppState.empty.tickets ++
            [submittedTicket wForm "20260102_000000" "ZS-20260102-00000001" 1 100]
      ∧ (submittedTicket wForm "20260102_000000" "ZS-20260102-00000001" 1 100).priority =
          (if pyStrip wForm.priority ∈ TICKET_PRIORITIES then pyStrip wForm.priority
           else "Medium")) :=
  ⟨by decide, by decide, by decide, by decide, by decide, by decide, by decide,
   by decide, by decide,
   submit_priority_ignores_message wForm "20260102_000000" "ZS-20260102-00000001"
     1 100 AppState.empty (by decide) (by decide) (by decide) (by decide)
     (by decide) (by decide) (by decide) (by decide) (by decide)⟩

/-- Witness for the C2 theorem at a concrete pending registration with a
matching, unexpired code. -/
theorem verify_otp_user_created_iff_witness :
    wStOtp.pending_registration = some ("a@x.com", "password1")
    ∧ (∀ r ∈ wStOtp.otps, r.otp_code.length = OTP_LENGTH)
    ∧ (∀ u ∈ wStOtp.users, u.email ≠ "a@x.com")
    ∧ (((∃ u, (verify_otp "123456" 1100 wStOtp).1.users = wStOtp.users ++ [u]) ↔
        (∃ r, latestOtp wStOtp.otps "a@x.com" = some r ∧ ¬ 1100 > r.expires_at
          ∧ r.otp_code = pyStrip "123456"))
      ∧ ((¬ ∃ r, latestOtp wStOtp.otps "a@x.com" = some r ∧ ¬ 1100 > r.expires_at
          ∧ r.otp_code = pyStrip "123456") →
        (verify_otp "123456" 1100 wStOtp).1.users = wStOtp.users
        ∧ ((verify_otp "123456" 1100 wStOtp).2 = .noRecord
          ∨ (verify_otp "123456" 1100 wStOtp).2 = .expired
          ∨ (verify_otp "123456" 1100 wStOtp).2 = .emptyCode
          ∨ (verify_otp "123456" 1100 wStOtp).2 = .codeMismatch))) :=
  ⟨rfl, by decide, by decide,
   verify_otp_user_created_iff "123456" 1100 wStOtp "a@x.com" "password1"
     rfl (by decide) (by decide)⟩

/-- Witness for the C3 amended theorem at a submission with an empty name. -/
theorem submit_validation_rejects_no_db_write_witness :
    (pyStrip cex3Form.name = "" ∨ pyStrip cex3Form.email = ""
      ∨ pyStrip cex3Form.issue_type = "" ∨ pyStrip cex3Form.message = ""
      ∨ (pyStrip cex3Form.name).length > 100
      ∨ (pyStrip cex3Form.email).length > 254
      ∨ (pyStrip cex3Form.message).length > 2000
      ∨ validate_email (pyStrip cex3Form.email) = false
      ∨ pyStrip cex3Form.issue_type ∉ ALLOWED_ISSUE_TYPES)
    ∧ (((submit cex3Form "20260101_000000" "ZS-20260101-ABCDEF01" 1 100
          AppState.empty).2 = .missingFields
        ∨ (submit cex3Form "20260101_000000" "ZS-20260101-ABCDEF01" 1 100
            AppState.empty).2 = .nameTooLong
        ∨ (submit cex3Form "20260101_000000" "ZS-20260101-ABCDEF01" 1 100
            AppState.empty).2 = .emailTooLong
        ∨ (submit cex3Form "20260101_000000" "ZS-20260101-ABCDEF01" 1 100
            AppState.empty).2 = .messageTooLong
        ∨ (submit cex3Form "20260101_000000" "ZS-20260101-ABCDEF01" 1 100
            AppState.empty).2 = .invalidEmail
        ∨ (submit cex3Form "20260101_000000" "ZS-20260101-ABCDEF01" 1 100
            AppState.empty).2 = .invalidIssueType)
      ∧ (submit cex3Form "20260101_000000" "ZS-20260101-ABCDEF01" 1 100
          AppState.empty).1.tickets = AppState.empty.tickets
      ∧ (submit cex3Form "20260101_000000" "ZS-20260101-ABCDEF01" 1 100
          AppState.empty).1.users = AppState.empty.users
      ∧ (submit cex3Form "20260101_000000" "ZS-20260101-ABCDEF01" 1 100
          AppState.empty).1.otps = AppState.empty.otps
      ∧ (submit cex3Form "20260101_000000" "ZS-20260101-ABCDEF01" 1 100
          AppState.empty).1.pending_registration =
          AppState.empty.pending_registration) :=
  ⟨by decide,
   submit_validation_rejects_no_db_write cex3Form "20260101_000000"
     "ZS-20260101-ABCDEF01" 1 100 AppState.empty (by decide)⟩

/-- Witness for the C4 theorem: verification 661 seconds past the expiry of
the only OTP row (issued at 1000, expiring at 1600, tried at 1661 — eleven
minutes after issuance under the ten-minute expiry). -/
theorem verify_otp_expired_cleanup_witness :
    wStOtp.pending_registration = some ("a@x.com", "password1")
    ∧ pyStrip "123456" ≠ ""
    ∧ latestOtp wStOtp.otps "a@x.com" = some wOtp
    ∧ (1661 > wOtp.expires_at)
    ∧ ((verify_otp "123456" 1661 wStOtp).2 = .expired
      ∧ (verify_otp "123456" 1661 wStOtp).1.users = wStOtp.users
      ∧ (verify_otp "123456" 1661 wStOtp).1.otps =
          wStOtp.otps.filter (fun q => !(q.id == wOtp.id))
      ∧ (verify_otp "123456" 1661 wStOtp).1.pending_registration = none) :=
  ⟨rfl, by decide, by decide, by decide,
   verify_otp_expired_cleanup "123456" 1661 wStOtp "a@x.com" "password1" wOtp
     rfl (by decide) (by decide) (by decide)⟩

/-- Witness for the C5 theorem: registering again with an email that already
has a User row. -/
theorem register_existing_email_rejected_witness :
    (∃ u ∈ wStUser.users, u.email = pyLower (pyStrip "A@X.com "))
    ∧ ((register "A@X.com " "password1" "password1" false "123456" 1 1000
          wStUser).1 = wStUser
      ∧ (register "A@X.com " "password1" "password1" false "123456" 1 1000
          wStUser).2 ≠ .otpIssued) :=
  ⟨by decide,
   register_existing_email_rejected "A@X.com " "password1" "password1" false
     "123456" 1 1000 wStUser (by decide)⟩

/-- Witness for the C6 theorem at a submission with the unknown priority
"Critical". -/
theorem submit_invalid_priority_defaults_medium_witness :
    pyStrip wForm6.name ≠ "" ∧ pyStrip wForm6.email ≠ ""
    ∧ pyStrip wForm6.message ≠ ""
    ∧ (pyStrip wForm6.name).length ≤ 100
    ∧ (pyStrip wForm6.email).length ≤ 254
    ∧ (pyStrip wForm6.message).length ≤ 2000
    ∧ validate_email (pyStrip wForm6.email) = true
    ∧ pyStrip wForm6.issue_type ∈ ALLOWED_ISSUE_TYPES
    ∧ (∀ t ∈ AppState.empty.tickets, t.ticket_id ≠ "ZS-20260102-00000001")
    ∧ pyStrip wForm6.priority ∉ TICKET_PRIORITIES
    ∧ ((submit wForm6 "20260102_000000" "ZS-20260102-00000001" 1 100
          AppState.empty).2 = .success
      ∧ (submit wForm6 "20260102_000000" "ZS-20260102-00000001" 1 100
          AppState.empty).1.tickets =
          AppState.empty.tickets ++
            [submittedTicket wForm6 "20260102_000000" "ZS-20260102-00000001" 1 100]
      ∧ (submittedTicket wForm6 "20260102_000000" "ZS-20260102-00000001" 1 100).priority =
          "Medium") :=
  ⟨by decide, by decide, by decide, by decide, by decide, by decide, by decide,
   by decide, by decide, by decide,
   submit_invalid_priority_defaults_medium wForm6 "20260102_000000"
     "ZS-20260102-00000001" 1 100 AppState.empty (by decide) (by decide)
     (by decide) (by decide) (by decide) (by decide) (by decide) (by decide)
     (by decide) (by decide)⟩

/-- Witness for the C9 theorem at the date 2026-01-02 with random value 1. -/
theorem submit_ticket_id_format_and_unique_witness :
    generate_ticket_id 2026 1 2 1 = generate_ticket_id 2026 1 2 1
    ∧ (2026 < 10000) ∧ (1 < 100) ∧ (2 < 100) ∧ ((1 : Nat) < 2 ^ 32)
    ∧ pyStrip wForm.name ≠ "" ∧ pyStrip wForm.email ≠ ""
    ∧ pyStrip wForm.message ≠ ""
    ∧ (pyStrip wForm.name).length ≤ 100
    ∧ (pyStrip wForm.email).length ≤ 254
    ∧ (pyStrip wForm.message).length ≤ 2000
    ∧ validate_email (pyStrip wForm.email) = true
    ∧ pyStrip wForm.issue_type ∈ ALLOWED_ISSUE_TYPES
    ∧ (∀ t ∈ AppState.empty.tickets, t.ticket_id ≠ generate_ticket_id 2026 1 2 1)
    ∧ (AppState.empty.tickets.map Ticket.ticket_id).Nodup
    ∧ ((submit wForm "20260102_000000" (generate_ticket_id 2026 1 2 1) 1 100
          AppState.empty).2 = .success
      ∧ ticketIdFormatOk (generate_ticket_id 2026 1 2 1) = true
      ∧ (((submit wForm "20260102_000000" (generate_ticket_id 2026 1 2 1) 1 100
          AppState.empty).1.tickets).map Ticket.ticket_id).Nodup) :=
  ⟨rfl, by decide, by decide, by decide, by decide, by decide, by decide,
   by decide, by decide, by decide, by decide, by decide, by decide, by decide,
   by decide,
   submit_ticket_id_format_and_unique 2026 1 2 1 wForm "20260102_000000"
     (generate_ticket_id 2026 1 2 1) 1 100 AppState.empty rfl (by decide)
     (by decide) (by decide) (by decide) (by decide) (by decide) (by decide)
     (by decide) (by decide) (by decide) (by decide) (by decide) (by decide)
     (by decide)⟩

/-- Witness for the C10 theorem: two stored tickets, a selection containing
a duplicate id, an unparseable id and an id of an already-resolved ticket. -/
theorem bulk_resolve_frame_witness :
    (wStTickets.tickets.map Ticket.id).Nodup
    ∧ ((bulk_resolve ["1", "x", "2", "1"] 50 wStTickets).1.tickets =
        resolveAll 50 (["1", "x", "2", "1"].filterMap pyParseInt)
          wStTickets.tickets
      ∧ (bulk_resolve ["1", "x", "2", "1"] 50 wStTickets).2 =
          openSelCount (["1", "x", "2", "1"].filterMap pyParseInt)
            wStTickets.tickets
      ∧ (bulk_resolve ["1", "x", "2", "1"] 50 wStTickets).1.users =
          wStTickets.users
      ∧ (bulk_resolve ["1", "x", "2", "1"] 50 wStTickets).1.otps =
          wStTickets.otps
      ∧ (bulk_resolve ["1", "x", "2", "1"] 50 wStTickets).1.pending_registration =
          wStTickets.pending_registration
      ∧ (bulk_resolve ["1", "x", "2", "1"] 50 wStTickets).1.uploads =
          wStTickets.uploads) :=
  ⟨by decide,
   bulk_resolve_frame ["1", "x", "2", "1"] 50 wStTickets (by decide)⟩

end ZetsuServ
